import Mathlib

/-!
Verification of the Kelly Criterion calculator (src/main.rs).

The core of the program is two pure functions, `kelly_criterion` (fixed-odds
mode, lines 29-42) and `kelly_polymarket` (market-price mode, lines 49-64),
both returning a `KellyResult` record, plus per-field validation performed by
the interactive loops (`interactive`, lines 289-379, and
`interactive_polymarket`, lines 382-470) and the argument-count dispatch in
`main` (lines 530-601).

The Rust code computes over `f64`; the embedding models that real arithmetic
over `ℚ` so that every definition is executable and every concrete instance
decidable.  Division in `ℚ` is total with `x / 0 = 0`, so claims about
division by zero are stated in terms of the divisor being nonzero and the
quotient genuinely inverting the multiplication.
-/

attribute [local semireducible] Rat.mul Rat.inv Rat.add Rat.sub

/-- Kelly calculation result (struct `KellyResult`, src lines 15-22). -/
structure KellyResult where
  optimal_fraction : ℚ
  positive_ev : Bool
  expected_value : ℚ
deriving DecidableEq, Repr

/-- `kelly_criterion` (src lines 29-42): fixed-odds Kelly.
`b = odds - 1`, `p = win_rate`, `q = 1 - p`,
`optimal_fraction = (b*p - q)/b`, `expected_value = p*b - q`,
`positive_ev = expected_value > 0`. -/
def kelly_criterion (odds win_rate : ℚ) : KellyResult :=
  let b := odds - 1
  let p := win_rate
  let q := 1 - p
  let optimal_fraction := (b * p - q) / b
  let expected_value := p * b - q
  { optimal_fraction := optimal_fraction
    positive_ev := decide (expected_value > 0)
    expected_value := expected_value }

/-- `kelly_polymarket` (src lines 49-64): market-price Kelly.
`b = (1 - market_price) / market_price`, otherwise the same formulas. -/
def kelly_polymarket (market_price your_probability : ℚ) : KellyResult :=
  let p_market := market_price
  let p_your := your_probability
  let b := (1 - p_market) / p_market
  let q := 1 - p_your
  let optimal_fraction := (b * p_your - q) / b
  let expected_value := p_your * b - q
  { optimal_fraction := optimal_fraction
    positive_ev := decide (expected_value > 0)
    expected_value := expected_value }

/-- The net-odds divisor used by `kelly_criterion` (src line 30). -/
def fixed_divisor (odds : ℚ) : ℚ := odds - 1

/-- The net-odds divisor used by `kelly_polymarket` (src line 53). -/
def market_divisor (market_price : ℚ) : ℚ := (1 - market_price) / market_price

/-- Capital validation of the interactive loops (src lines 363-373 and
454-464): an absent input stays absent, a non-positive input is silently
replaced by "no capital supplied". -/
def validate_capital (cap_in : Option ℚ) : Option ℚ :=
  match cap_in with
  | none => none
  | some n => if 0 < n then some n else none

/-- One iteration of `interactive` (src lines 292-378) at the post-parse
numeric level: odds are accepted when `> 1`, the win-rate percentage when in
`[0, 100]` (then scaled by `1/100`); a rejection re-prompts without invoking
the engine (`none`); otherwise the engine result and the validated capital
are produced. -/
def interactive_step (odds_in wr_in : ℚ) (cap_in : Option ℚ) :
    Option (KellyResult × Option ℚ) :=
  if 1 < odds_in then
    if 0 ≤ wr_in ∧ wr_in ≤ 100 then
      some (kelly_criterion odds_in (wr_in / 100), validate_capital cap_in)
    else none
  else none

/-- One iteration of `interactive_polymarket` (src lines 385-469) at the
post-parse numeric level: the price percentage is accepted when in
`(0, 100]`, the probability percentage when in `[0, 100]` (both scaled by
`1/100`). -/
def interactive_polymarket_step (price_in prob_in : ℚ) (cap_in : Option ℚ) :
    Option (KellyResult × Option ℚ) :=
  if 0 < price_in ∧ price_in ≤ 100 then
    if 0 ≤ prob_in ∧ prob_in ≤ 100 then
      some (kelly_polymarket (price_in / 100) (prob_in / 100), validate_capital cap_in)
    else none
  else none

/-- The three-argument CLI path of `main` (src lines 584-588): odds and the
win-rate percentage are parsed and the engine invoked with `win_rate / 100`,
with no range validation of either value. -/
def cli_fixed_run (odds_arg win_rate_arg : ℚ) : KellyResult :=
  kelly_criterion odds_arg (win_rate_arg / 100)

/-- The optimal fraction of `kelly_polymarket` is the quotient of the Kelly
numerator by `market_divisor`. -/
theorem kelly_polymarket_optimal_fraction (price p : ℚ) :
    (kelly_polymarket price p).optimal_fraction =
      (market_divisor price * p - (1 - p)) / market_divisor price := rfl

/-- The optimal fraction of `kelly_criterion` is the quotient of the Kelly
numerator by `fixed_divisor`. -/
theorem kelly_criterion_optimal_fraction (odds wr : ℚ) :
    (kelly_criterion odds wr).optimal_fraction =
      (fixed_divisor odds * wr - (1 - wr)) / fixed_divisor odds := rfl

/-- C1: for every odds > 1 and win_rate in [0,1], `kelly_criterion` returns
`expected_value = win_rate*(odds-1) - (1-win_rate)`,
`optimal_fraction = ((odds-1)*win_rate - (1-win_rate)) / (odds-1)`, and
`positive_ev` true iff `expected_value > 0`. -/
theorem kelly_criterion_spec (odds wr : ℚ)
    (h1 : 1 < odds) (h2 : 0 ≤ wr) (h3 : wr ≤ 1) :
    (kelly_criterion odds wr).expected_value = wr * (odds - 1) - (1 - wr) ∧
    (kelly_criterion odds wr).optimal_fraction =
      ((odds - 1) * wr - (1 - wr)) / (odds - 1) ∧
    ((kelly_criterion odds wr).positive_ev = true ↔
      (kelly_criterion odds wr).expected_value > 0) := by
  refine ⟨rfl, rfl, ?_⟩
  simp [kelly_criterion]

/-- Witness for C1 at odds = 2, win_rate = 3/5. -/
theorem kelly_criterion_spec_witness :
    (kelly_criterion 2 (3/5)).expected_value = 3/5 * (2 - 1) - (1 - 3/5) ∧
    (kelly_criterion 2 (3/5)).optimal_fraction =
      ((2 - 1) * (3/5) - (1 - 3/5)) / (2 - 1) ∧
    ((kelly_criterion 2 (3/5)).positive_ev = true ↔
      (kelly_criterion 2 (3/5)).expected_value > 0) :=
  kelly_criterion_spec 2 (3/5) (by decide) (by decide) (by decide)

/-- C2: for every market_price in (0,1] and your_probability in [0,1],
`kelly_polymarket(market_price, your_probability)` equals
`kelly_criterion(1/market_price, your_probability)` field-for-field. -/
theorem kelly_polymarket_eq_kelly_criterion (price pr : ℚ)
    (h1 : 0 < price) (h2 : price ≤ 1) (h3 : 0 ≤ pr) (h4 : pr ≤ 1) :
    kelly_polymarket price pr = kelly_criterion (1 / price) pr := by
  have hp : price ≠ 0 := ne_of_gt h1
  have hb : (1 - price) / price = 1 / price - 1 := by
    rw [sub_div, div_self hp]
  simp only [kelly_polymarket, kelly_criterion]
  rw [hb]

/-- Witness for C2 at market_price = 3/5, your_probability = 3/4. -/
theorem kelly_polymarket_eq_kelly_criterion_witness :
    kelly_polymarket (3/5) (3/4) = kelly_criterion (1 / (3/5)) (3/4) :=
  kelly_polymarket_eq_kelly_criterion (3/5) (3/4)
    (by decide) (by decide) (by decide) (by decide)

/-- C3 counterexample: market_price = 1 passes validation (`0 < 1 ≤ 1`), yet
the net-odds divisor of `kelly_polymarket` is zero there, so the optimal
fraction is not a genuine quotient: multiplying it back by the divisor does
not recover the Kelly numerator. -/
theorem market_divisor_zero_at_price_one :
    (0:ℚ) < 1 ∧ (1:ℚ) ≤ 1 ∧ market_divisor 1 = 0 ∧
    (kelly_polymarket 1 (1/2)).optimal_fraction * market_divisor 1 ≠
      market_divisor 1 * (1/2) - (1 - 1/2) := by decide

/-- C3 amended: for odds > 1 the divisor of `kelly_criterion` is nonzero, and
for market_price in (0,1) — strictly excluding 1 — the divisor of
`kelly_polymarket` is nonzero; in these cases each optimal fraction is a
genuine quotient (multiplying back by the divisor recovers the Kelly
numerator), so no division by zero occurs. -/
theorem divisors_nonzero (odds wr price p : ℚ)
    (ho : 1 < odds) (hp0 : 0 < price) (hp1 : price < 1) :
    fixed_divisor odds ≠ 0 ∧ market_divisor price ≠ 0 ∧
    (kelly_criterion odds wr).optimal_fraction * fixed_divisor odds =
      fixed_divisor odds * wr - (1 - wr) ∧
    (kelly_polymarket price p).optimal_fraction * market_divisor price =
      market_divisor price * p - (1 - p) := by
  have hf : (0:ℚ) < fixed_divisor odds := sub_pos.mpr ho
  have hm : (0:ℚ) < market_divisor price := div_pos (sub_pos.mpr hp1) hp0
  refine ⟨ne_of_gt hf, ne_of_gt hm, ?_, ?_⟩
  · rw [kelly_criterion_optimal_fraction, div_mul_cancel₀ _ (ne_of_gt hf)]
  · rw [kelly_polymarket_optimal_fraction, div_mul_cancel₀ _ (ne_of_gt hm)]

/-- Witness for the amended C3 at odds = 2, win_rate = 3/5,
market_price = 3/5, your_probability = 3/4. -/
theorem divisors_nonzero_witness :
    fixed_divisor 2 ≠ 0 ∧ market_divisor (3/5) ≠ 0 ∧
    (kelly_criterion 2 (3/5)).optimal_fraction * fixed_divisor 2 =
      fixed_divisor 2 * (3/5) - (1 - 3/5) ∧
    (kelly_polymarket (3/5) (3/4)).optimal_fraction * market_divisor (3/5) =
      market_divisor (3/5) * (3/4) - (1 - 3/4) :=
  divisors_nonzero 2 (3/5) (3/5) (3/4) (by decide) (by decide) (by decide)

/-- C5: for both engine functions and every input, `positive_ev` equals the
strict comparison `expected_value > 0`; in particular at the break-even
input odds = 2, win_rate = 1/2, the expected value is 0 and `positive_ev`
is false. -/
theorem positive_ev_strict (odds wr price p : ℚ) :
    ((kelly_criterion odds wr).positive_ev = true ↔
      (kelly_criterion odds wr).expected_value > 0) ∧
    ((kelly_polymarket price p).positive_ev = true ↔
      (kelly_polymarket price p).expected_value > 0) ∧
    (kelly_criterion 2 (1/2)).expected_value = 0 ∧
    (kelly_criterion 2 (1/2)).positive_ev = false := by
  refine ⟨?_, ?_, by decide, by decide⟩ <;>
    simp [kelly_criterion, kelly_polymarket]

/-- C6: break-even — for every odds > 1, at win_rate = 1/odds the engine
returns expected_value = 0 (exactly, in the rational model) and
optimal_fraction = 0. -/
theorem break_even (odds : ℚ) (h : 1 < odds) :
    (kelly_criterion odds (1 / odds)).expected_value = 0 ∧
    (kelly_criterion odds (1 / odds)).optimal_fraction = 0 := by
  have h0 : odds ≠ 0 := ne_of_gt (lt_trans zero_lt_one h)
  have hnum : (odds - 1) * (1 / odds) - (1 - 1 / odds) = 0 := by
    field_simp
  constructor
  · show 1 / odds * (odds - 1) - (1 - 1 / odds) = 0
    field_simp
  · show ((odds - 1) * (1 / odds) - (1 - 1 / odds)) / (odds - 1) = 0
    rw [hnum, zero_div]

/-- Witness for C6 at odds = 2. -/
theorem break_even_witness :
    (kelly_criterion 2 (1 / 2)).expected_value = 0 ∧
    (kelly_criterion 2 (1 / 2)).optimal_fraction = 0 :=
  break_even 2 (by decide)

/-- C7: scenario A — at odds = 2, win_rate = 0.60 the engine returns
expected_value = 0.20 and optimal_fraction = 0.20. -/
theorem scenario_a :
    (kelly_criterion 2 (3/5)).expected_value = 1/5 ∧
    (kelly_criterion 2 (3/5)).optimal_fraction = 1/5 := by decide

/-- C8: negative edge results are returned raw — whenever the expected value
is negative (odds > 1), `kelly_criterion` returns `positive_ev = false` and a
strictly negative `optimal_fraction`, and the fraction field is exactly the
raw Kelly quotient, not a clamped value. -/
theorem negative_edge_raw (odds wr : ℚ) (hodds : 1 < odds)
    (hev : (kelly_criterion odds wr).expected_value < 0) :
    (kelly_criterion odds wr).positive_ev = false ∧
    (kelly_criterion odds wr).optimal_fraction < 0 ∧
    (kelly_criterion odds wr).optimal_fraction =
      ((odds - 1) * wr - (1 - wr)) / (odds - 1) := by
  have hb : (0:ℚ) < odds - 1 := sub_pos.mpr hodds
  have hev' : wr * (odds - 1) - (1 - wr) < 0 := hev
  have hnum : (odds - 1) * wr - (1 - wr) < 0 := by
    rw [mul_comm]; exact hev'
  refine ⟨?_, ?_, rfl⟩
  · show decide (wr * (odds - 1) - (1 - wr) > 0) = false
    exact decide_eq_false (not_lt.mpr hev'.le)
  · show ((odds - 1) * wr - (1 - wr)) / (odds - 1) < 0
    exact div_neg_of_neg_of_pos hnum hb

/-- Witness for C8 at odds = 3/2, win_rate = 1/10. -/
theorem negative_edge_raw_witness :
    (1:ℚ) < 3/2 ∧ (kelly_criterion (3/2) (1/10)).expected_value < 0 ∧
    ((kelly_criterion (3/2) (1/10)).positive_ev = false ∧
     (kelly_criterion (3/2) (1/10)).optimal_fraction < 0 ∧
     (kelly_criterion (3/2) (1/10)).optimal_fraction =
       ((3/2 - 1) * (1/10) - (1 - 1/10)) / (3/2 - 1)) :=
  ⟨by decide, by decide, negative_edge_raw (3/2) (1/10) (by decide) (by decide)⟩

/-- C9: an invalid capital value is non-fatal — with validated odds/win-rate
(or price/probability) inputs and a non-positive capital input, one iteration
of either interactive loop still invokes the engine and produces its result,
with the capital treated as "no capital supplied" (`none`). -/
theorem capital_invalid_nonfatal (odds_in wr_in price_in prob_in cap : ℚ)
    (h1 : 1 < odds_in) (h2 : 0 ≤ wr_in) (h3 : wr_in ≤ 100)
    (h4 : 0 < price_in) (h5 : price_in ≤ 100)
    (h6 : 0 ≤ prob_in) (h7 : prob_in ≤ 100) (hc : ¬ 0 < cap) :
    interactive_step odds_in wr_in (some cap) =
      some (kelly_criterion odds_in (wr_in / 100), none) ∧
    interactive_polymarket_step price_in prob_in (some cap) =
      some (kelly_polymarket (price_in / 100) (prob_in / 100), none) := by
  constructor <;>
    simp [interactive_step, interactive_polymarket_step, validate_capital,
      h1, h2, h3, h4, h5, h6, h7, hc]

/-- Witness for C9 at odds = 2, win-rate 60%, price 60, probability 75,
capital = -5. -/
theorem capital_invalid_nonfatal_witness :
    interactive_step 2 60 (some (-5)) =
      some (kelly_criterion 2 (60 / 100), none) ∧
    interactive_polymarket_step 60 75 (some (-5)) =
      some (kelly_polymarket (60 / 100) (75 / 100), none) :=
  capital_invalid_nonfatal 2 60 60 75 (-5) (by decide) (by decide) (by decide)
    (by decide) (by decide) (by decide) (by decide) (by decide)

/-- C4: the interactive loop does reject a win-rate percentage of 150 before
the engine is invoked, but the three-argument CLI path of `main` performs no
range validation: `kelly 2.0 150` invokes the engine with win_rate = 1.5 and
returns a result (optimal_fraction = 2, expected_value = 2), contradicting
the requirement that every user-input path rejects it. -/
theorem win_rate_150_reaches_engine_via_cli :
    interactive_step 2 150 none = none ∧
    cli_fixed_run 2 150 =
      { optimal_fraction := 2, positive_ev := true, expected_value := 2 } := by
  decide

/-- C10: for both engine functions, the optimal fraction is the expected
value divided by the net-odds divisor, and when the fixed divisor is
positive, `positive_ev` holds exactly when the optimal fraction is
positive. -/
theorem fraction_eq_ev_div_divisor (odds wr price p : ℚ)
    (hpos : 0 < fixed_divisor odds) (hm : market_divisor price ≠ 0) :
    (kelly_criterion odds wr).optimal_fraction =
      (kelly_criterion odds wr).expected_value / fixed_divisor odds ∧
    (kelly_polymarket price p).optimal_fraction =
      (kelly_polymarket price p).expected_value / market_divisor price ∧
    ((kelly_criterion odds wr).positive_ev = true ↔
      0 < (kelly_criterion odds wr).optimal_fraction) := by
  have ha : (kelly_criterion odds wr).optimal_fraction =
      (kelly_criterion odds wr).expected_value / fixed_divisor odds := by
    show ((odds - 1) * wr - (1 - wr)) / (odds - 1) =
      (wr * (odds - 1) - (1 - wr)) / (odds - 1)
    rw [mul_comm ((odds : ℚ) - 1) wr]
  have hb : (kelly_polymarket price p).optimal_fraction =
      (kelly_polymarket price p).expected_value / market_divisor price := by
    show ((1 - price) / price * p - (1 - p)) / ((1 - price) / price) =
      (p * ((1 - price) / price) - (1 - p)) / ((1 - price) / price)
    rw [mul_comm ((1 - price) / price) p]
  have hev : (kelly_criterion odds wr).positive_ev = true ↔
      0 < (kelly_criterion odds wr).expected_value := by
    simp [kelly_criterion]
  refine ⟨ha, hb, ?_⟩
  rw [hev, ha, lt_div_iff₀ hpos, zero_mul]

/-- Witness for C10 at odds = 2, win_rate = 3/5, market_price = 3/5,
your_probability = 3/4. -/
theorem fraction_eq_ev_div_divisor_witness :
    ((kelly_criterion 2 (3/5)).optimal_fraction =
      (kelly_criterion 2 (3/5)).expected_value / fixed_divisor 2) ∧
    ((kelly_polymarket (3/5) (3/4)).optimal_fraction =
      (kelly_polymarket (3/5) (3/4)).expected_value / market_divisor (3/5)) ∧
    ((kelly_criterion 2 (3/5)).positive_ev = true ↔
      0 < (kelly_criterion 2 (3/5)).optimal_fraction) :=
  fraction_eq_ev_div_divisor 2 (3/5) (3/5) (3/4) (by decide) (by decide)
